import Mathlib

/-!
Verification of the gnpy physical-layer propagation core against its
natural-language specification.  The Python sources under gnpy/core (info.py,
elements.py, equipment.py) and the driver examples/path_requests_run.py are
shallowly embedded: numpy arrays become lists of rationals, dB/linear powers
are rationals, fallible constructors return Except, and in-place mutation of
element runtime state becomes explicit state passing.  The dB conversion
helpers lin2db and db2lin live in gnpy.core.utils, which is not part of the
sources at hand; every embedded function that calls them takes them as
explicit function arguments, and no theorem below depends on their values.
-/

/-- Python exception kinds observed in the embedded code paths.  InfoError is
the gnpy.core.exceptions error raised by SpectralInformation construction;
the others are builtin Python exceptions. -/
inductive PyErr where
  | infoError (msg : String)
  | attributeError
  | nameError
  | valueError
  | typeError
  deriving DecidableEq, Repr

/-- Arithmetic mean of a list, as written with numpy.mean: sum divided by
length.  numpy.mean of an empty array is nan; in this rational model the
division by zero yields 0, and no theorem depends on the empty case. -/
def listMean (l : List ℚ) : ℚ := l.sum / l.length

/-- numpy.interp restricted to one query point: piecewise-linear
interpolation through the sample points (xp, fp), clamped to the first and
last sample outside the range.  numpy assumes xp increasing and raises on an
empty xp; the empty case here returns 0 and is excluded by hypotheses
wherever it matters. -/
def numpyInterp (x : ℚ) : List ℚ → List ℚ → ℚ
  | x0 :: x1 :: xs, y0 :: y1 :: ys =>
    if x ≤ x0 then y0
    else if x ≤ x1 then y0 + (y1 - y0) * (x - x0) / (x1 - x0)
    else numpyInterp x (x1 :: xs) (y1 :: ys)
  | [_], y0 :: _ => y0
  | _, _ => 0

/-- Python round-half-to-even to an integer (the built-in round with one
argument, idealized over ℚ rather than binary floating point). -/
def pyRoundInt (x : ℚ) : ℤ :=
  let f := ⌊x⌋
  let r := x - f
  if r < 1/2 then f
  else if 1/2 < r then f + 1
  else if f % 2 = 0 then f else f + 1

/-- Python round(x, 2): round half to even at two decimal places. -/
def pyRound2 (x : ℚ) : ℚ := (pyRoundInt (x * 100) : ℚ) / 100

/-- numpy.polyval with coefficients ordered from the highest degree down
(Horner evaluation). -/
def polyval (coef : List ℚ) (x : ℚ) : ℚ :=
  coef.foldl (fun acc c => acc * x + c) 0

/-- int((f_max - f_min)//spacing) from gnpy.core.equipment.automatic_nch
(equipment.py:318). -/
def automatic_nch (f_min f_max spacing : ℚ) : ℤ :=
  ⌊(f_max - f_min) / spacing⌋

/-- Pref namedtuple (info.py:37): noiseless reference power record carried by
a SpectralInformation, with exactly the three fields p_span0, p_spani and
neq_ch. -/
structure Pref where
  p_span0 : ℚ
  p_spani : ℚ
  neq_ch : ℚ
  deriving DecidableEq, Repr

/-- Attribute lookup on the Pref namedtuple: exactly the three declared field
names resolve; any other attribute access raises AttributeError in Python. -/
def Pref.lookup (p : Pref) : String → Option ℚ
  | "p_span0" => some p.p_span0
  | "p_spani" => some p.p_spani
  | "neq_ch" => some p.neq_ch
  | _ => none

/-- One carrier of the WDM comb: the per-channel quantities stored by
SpectralInformation (info.py:45), kept together so that the argsort
permutation of the constructor reorders them jointly. -/
structure SIChannel where
  frequency : ℚ
  grid : ℚ
  baud_rate : ℚ
  signal : ℚ
  nli : ℚ
  ase : ℚ
  roll_off : ℚ
  chromatic_dispersion : ℚ
  pmd : ℚ
  deriving DecidableEq, Repr

/-- SpectralInformation (info.py:44): the per-channel state sorted by
ascending frequency plus the scalar reference-power record. -/
structure SpectralInformation where
  channels : List SIChannel
  pref : Pref
  deriving DecidableEq, Repr

/-- Joint zip of the nine per-channel input arrays of the SpectralInformation
constructor into channel records (index-aligned, truncating at the shortest;
the construction lemmas assume equal lengths as numpy broadcasting provides). -/
def zipChannels : List ℚ → List ℚ → List ℚ → List ℚ → List ℚ → List ℚ →
    List ℚ → List ℚ → List ℚ → List SIChannel
  | f :: fs, g :: gs, b :: bs, s :: ss, n :: ns, a :: cs, r :: rs, c :: ds, p :: ps =>
    ⟨f, g, b, s, n, a, r, c, p⟩ :: zipChannels fs gs bs ss ns cs rs ds ps
  | _, _, _, _, _, _, _, _, _ => []

/-- Insertion of a channel into a list already sorted by ascending frequency. -/
def insertByFreq (c : SIChannel) : List SIChannel → List SIChannel
  | [] => [c]
  | d :: rest =>
    if c.frequency ≤ d.frequency then c :: d :: rest else d :: insertByFreq c rest

/-- The argsort-by-frequency permutation of the constructor (info.py:47),
applied jointly to all per-channel arrays (insertion sort, ascending
frequency: the same reordering numpy argsort produces). -/
def sortChannels : List SIChannel → List SIChannel
  | [] => []
  | c :: rest => insertByFreq c (sortChannels rest)

/-- The overlap test of info.py:52 on the frequency-sorted channels:
true when some adjacent pair has frequency[i] + grid[i]/2 >
frequency[i+1] - grid[i+1]/2. -/
def gridOverlap : List SIChannel → Bool
  | a :: b :: rest =>
    (b.frequency - b.grid / 2 < a.frequency + a.grid / 2) || gridOverlap (b :: rest)
  | _ => false

/-- The baud-rate test of info.py:54: true when some channel has a baud rate
strictly larger than its grid spacing. -/
def baudOverGrid (l : List SIChannel) : Bool :=
  l.any (fun c => c.grid < c.baud_rate)

/-- SpectralInformation.__init__ (info.py:45-64): sort all per-channel arrays
by ascending frequency, raise InfoError when adjacent channels overlap or
when a baud rate exceeds its grid, otherwise build the instance; the
reference power is lin2db of the mean input signal power in mW, and neq_ch
is lin2db of the channel count. -/
def mkSpectralInformation (lin2db : ℚ → ℚ)
    (frequency baud_rate grid signal nli ase roll_off chromatic_dispersion pmd : List ℚ) :
    Except PyErr SpectralInformation :=
  let sorted := sortChannels
    (zipChannels frequency grid baud_rate signal nli ase roll_off chromatic_dispersion pmd)
  if gridOverlap sorted then
    .error (.infoError ("Spectrum required grid larger than the frequencies spectral distance."))
  else if baudOverGrid sorted then
    .error (.infoError ("Spectrum baud rate larger than the grid."))
  else
    let p := lin2db (listMean signal * 1000)
    .ok { channels := sorted, pref := { p_span0 := p, p_spani := p, neq_ch := lin2db (frequency.length : ℚ) } }

theorem insertByFreq_perm (c : SIChannel) (l : List SIChannel) :
    (insertByFreq c l).Perm (c :: l) := by
  induction l with
  | nil => exact List.Perm.refl _
  | cons d rest ih =>
    rw [insertByFreq]
    split
    · exact List.Perm.refl _
    · exact (ih.cons d).trans (List.Perm.swap c d rest)

theorem sortChannels_perm (l : List SIChannel) : (sortChannels l).Perm l := by
  induction l with
  | nil => exact List.Perm.refl _
  | cons c rest ih =>
    exact (insertByFreq_perm c (sortChannels rest)).trans (ih.cons c)

theorem noOverlap_of_not_gridOverlap (l : List SIChannel) (h : gridOverlap l = false) :
    List.Chain' (fun a b => a.frequency + a.grid / 2 ≤ b.frequency - b.grid / 2) l := by
  induction l with
  | nil => simp
  | cons a rest ih =>
    cases rest with
    | nil => simp
    | cons b t =>
      rw [gridOverlap] at h
      simp only [Bool.or_eq_false_iff, decide_eq_false_iff_not, not_lt] at h
      exact List.chain'_cons.mpr ⟨h.1, ih h.2⟩

theorem baud_le_grid_of_not_baudOverGrid (l : List SIChannel) (h : baudOverGrid l = false) :
    ∀ c ∈ l, c.baud_rate ≤ c.grid := by
  simp only [baudOverGrid, List.any_eq_false, decide_eq_true_eq, not_lt] at h
  exact h

theorem zipChannels_length (f : List ℚ) :
    ∀ g b s n a r c p : List ℚ,
      g.length = f.length → b.length = f.length → s.length = f.length →
      n.length = f.length → a.length = f.length → r.length = f.length →
      c.length = f.length → p.length = f.length →
      (zipChannels f g b s n a r c p).length = f.length := by
  induction f with
  | nil =>
    intro g b s n a r c p hg _ _ _ _ _ _ _
    cases g with
    | nil => rfl
    | cons _ _ => simp at hg
  | cons x ft ih =>
    intro g b s n a r c p hg hb hs hn ha hr hc hp
    obtain ⟨_, g, rfl⟩ := List.exists_of_length_succ g hg
    obtain ⟨_, b, rfl⟩ := List.exists_of_length_succ b hb
    obtain ⟨_, s, rfl⟩ := List.exists_of_length_succ s hs
    obtain ⟨_, n, rfl⟩ := List.exists_of_length_succ n hn
    obtain ⟨_, a, rfl⟩ := List.exists_of_length_succ a ha
    obtain ⟨_, r, rfl⟩ := List.exists_of_length_succ r hr
    obtain ⟨_, c, rfl⟩ := List.exists_of_length_succ c hc
    obtain ⟨_, p, rfl⟩ := List.exists_of_length_succ p hp
    simp only [zipChannels, List.length_cons, Nat.succ.injEq] at *
    exact ih g b s n a r c p (by omega) (by omega) (by omega) (by omega)
      (by omega) (by omega) (by omega) (by omega)

/-- The conclusion of the C1 construction claim for given inputs: every
successfully constructed instance satisfies the no-overlap and
baud-within-grid invariants on its (frequency-sorted) channels and is a
permutation of the full input channel set of unchanged size (no channel
silently dropped); and whenever the sorted inputs violate either invariant,
construction fails with an InfoError. -/
def SpectralConstructionSound (lin2db : ℚ → ℚ)
    (frequency baud_rate grid signal nli ase roll_off chromatic_dispersion pmd : List ℚ) : Prop :=
  (∀ si, mkSpectralInformation lin2db frequency baud_rate grid signal nli ase roll_off
      chromatic_dispersion pmd = .ok si →
    List.Chain' (fun a b => a.frequency + a.grid / 2 ≤ b.frequency - b.grid / 2) si.channels ∧
    (∀ c ∈ si.channels, c.baud_rate ≤ c.grid) ∧
    si.channels.Perm
      (zipChannels frequency grid baud_rate signal nli ase roll_off chromatic_dispersion pmd) ∧
    si.channels.length = frequency.length) ∧
  ((gridOverlap (sortChannels (zipChannels frequency grid baud_rate signal nli ase roll_off
       chromatic_dispersion pmd)) = true ∨
    baudOverGrid (sortChannels (zipChannels frequency grid baud_rate signal nli ase roll_off
       chromatic_dispersion pmd)) = true) →
    ∃ msg, mkSpectralInformation lin2db frequency baud_rate grid signal nli ase roll_off
      chromatic_dispersion pmd = .error (.infoError msg))

/-- C1: for every attempt to construct a SpectralInformation, if after sorting
by ascending frequency some adjacent pair overlaps (frequency[i] + grid[i]/2 >
frequency[i+1] - grid[i+1]/2) or some baud rate exceeds its grid, construction
raises an InfoError and no instance is produced; construction never silently
drops channels (the constructed channel list is a permutation of the input
channels, of the same length), and every successfully constructed instance
satisfies the no-overlap and baud-rate-within-grid invariant.
create_arbitrary_spectral_information and create_input_spectral_information
both funnel into this constructor (info.py:228, info.py:239). -/
theorem C1_spectral_info_invariant (lin2db : ℚ → ℚ)
    (frequency baud_rate grid signal nli ase roll_off chromatic_dispersion pmd : List ℚ)
    (hg : grid.length = frequency.length) (hb : baud_rate.length = frequency.length)
    (hs : signal.length = frequency.length) (hn : nli.length = frequency.length)
    (ha : ase.length = frequency.length) (hr : roll_off.length = frequency.length)
    (hc : chromatic_dispersion.length = frequency.length) (hp : pmd.length = frequency.length) :
    SpectralConstructionSound lin2db frequency baud_rate grid signal nli ase roll_off
      chromatic_dispersion pmd := by
  unfold SpectralConstructionSound
  rw [mkSpectralInformation]
  by_cases h1 : gridOverlap (sortChannels (zipChannels frequency grid baud_rate signal nli ase
      roll_off chromatic_dispersion pmd)) = true
  · rw [if_pos h1]
    constructor
    · intro si hsi
      exact nomatch hsi
    · intro hv
      exact ⟨_, rfl⟩
  · rw [Bool.not_eq_true] at h1
    rw [if_neg (by simp [h1])]
    by_cases h2 : baudOverGrid (sortChannels (zipChannels frequency grid baud_rate signal nli ase
        roll_off chromatic_dispersion pmd)) = true
    · rw [if_pos h2]
      constructor
      · intro si hsi
        exact nomatch hsi
      · intro hv
        exact ⟨_, rfl⟩
    · rw [Bool.not_eq_true] at h2
      rw [if_neg (by simp [h2])]
      refine ⟨fun si hsi => ?_, fun hviol => ?_⟩
      · cases hsi
        refine ⟨noOverlap_of_not_gridOverlap _ h1, baud_le_grid_of_not_baudOverGrid _ h2,
          sortChannels_perm _, ?_⟩
        rw [(sortChannels_perm _).length_eq]
        exact zipChannels_length frequency grid baud_rate signal nli ase roll_off
          chromatic_dispersion pmd hg hb hs hn ha hr hc hp
      · rcases hviol with hv | hv
        · rw [h1] at hv; cases hv
        · rw [h2] at hv; cases hv

/-- Witness for C1 at a concrete valid two-channel input: frequencies 0 and
100 with grid 50 and baud rate 40 construct successfully and the conclusion
holds. -/
theorem C1_spectral_info_invariant_witness :
    SpectralConstructionSound (fun _ => 0) [0, 100] [40, 40] [50, 50] [1, 1] [0, 0] [0, 0]
      [0, 0] [0, 0] [0, 0] :=
  C1_spectral_info_invariant (fun _ => 0) [0, 100] [40, 40] [50, 50] [1, 1] [0, 0] [0, 0]
    [0, 0] [0, 0] [0, 0] (by decide) (by decide) (by decide) (by decide) (by decide)
    (by decide) (by decide) (by decide)

/-- BASE_GRID = 12.5 GHz (info.py:17). -/
def BASE_GRID : ℚ := 12.5e9

/-- Rendering of the optional name argument in the f-string error messages of
dimension_reshape: Python prints the value None when no name was passed. -/
def pyName : Option String → String
  | some s => s
  | none => "None"

/-- A Python value passed to dimension_reshape: None, a numeric scalar, a
numeric array, or a string.  Strings are Sized in Python, which matters
because create_arbitrary_spectral_information (info.py:220) passes the string
literal for the baud-rate field name positionally as the DEFAULT argument. -/
inductive PyVal where
  | pynone
  | scalar (x : ℚ)
  | arr (xs : List ℚ)
  | str (s : String)
  deriving DecidableEq, Repr

/-- dimension_reshape on a non-None value (info.py:199-207): a scalar (not
Sized) broadcasts to the dimension; a Sized value of length 1 broadcasts, of
length equal to the dimension passes through (squeeze), and any other length
raises the dimension-mismatch InfoError.  For a string: a length-1 string
would be multiplied by a float array, a numpy TypeError; a string whose
length equals the dimension passes through squeeze unchanged. -/
def dimension_reshape_sized (value : PyVal) (dimension : ℕ) (name : Option String) :
    Except PyErr PyVal :=
  match value with
  | .pynone => .error .typeError
  | .scalar x => .ok (.arr (List.replicate dimension x))
  | .arr xs =>
    match xs with
    | [x] => .ok (.arr (List.replicate dimension x))
    | _ =>
      if xs.length = dimension then .ok (.arr xs)
      else .error (.infoError ("Dimension mismatch field: " ++ pyName name ++ "."))
  | .str s =>
    if s.length = 1 then .error .typeError
    else if s.length = dimension then .ok (.str s)
    else .error (.infoError ("Dimension mismatch field: " ++ pyName name ++ "."))

/-- dimension_reshape (info.py:193-208): a None value falls back on the
default when one is given, recursing with value := default and the same name
(info.py:196); a None value with no default raises the missing-mandatory-field
InfoError; any other value is reshaped against the dimension. -/
def dimension_reshape (value : PyVal) (dimension : ℕ) (default : PyVal)
    (name : Option String) : Except PyErr PyVal :=
  match value with
  | .pynone =>
    match default with
    | .pynone => .error (.infoError ("Missing mandatory field: " ++ pyName name ++ "."))
    | d => dimension_reshape_sized d dimension name
  | v => dimension_reshape_sized v dimension name

/-- ceil(baud_rate/BASE_GRID) * BASE_GRID (info.py:221), the default grid.
It is evaluated eagerly at the call site on the already-reshaped baud-rate
value; when that value is the string that dimension_reshape can return for a
missing baud rate, this numpy expression raises TypeError. -/
def gridFromBaud : PyVal → Except PyErr PyVal
  | .arr xs => .ok (.arr (xs.map (fun x => (⌈x / BASE_GRID⌉ : ℚ) * BASE_GRID)))
  | _ => .error .typeError

/-- Coercion of a reshaped PyVal back to a per-channel list for the
SpectralInformation constructor; a non-array at this point is a numpy type
error. -/
def PyVal.toArr : PyVal → Except PyErr (List ℚ)
  | .arr xs => .ok xs
  | _ => .error .typeError

/-- create_arbitrary_spectral_information (info.py:211-232): squeeze the
frequency input, broadcast or validate every per-channel field with
dimension_reshape (note info.py:220 where the string literal for baud rate is
passed as the default, not as the name), fill nli and ase with zeros, and
construct the SpectralInformation. -/
def create_arbitrary_spectral_information (lin2db : ℚ → ℚ) (frequency : PyVal)
    (grid signal baud_rate roll_off chromatic_dispersion pmd : PyVal) :
    Except PyErr SpectralInformation := do
  let freqs ← match frequency with
    | .arr xs => Except.ok xs
    | .scalar x => Except.ok [x]
    | _ => .error .typeError
  let n := freqs.length
  let baud ← dimension_reshape baud_rate n (.str ("baud rate")) none
  let gridDefault ← gridFromBaud baud
  let gridv ← dimension_reshape grid n gridDefault (some ("grid"))
  let signalv ← dimension_reshape signal n (.scalar 0) (some ("signal"))
  let nliL := List.replicate n (0 : ℚ)
  let aseL := List.replicate n (0 : ℚ)
  let rollv ← dimension_reshape roll_off n (.scalar 0) (some ("roll_off"))
  let cdv ← dimension_reshape chromatic_dispersion n (.scalar 0) (some ("chromatic dispersion"))
  let pmdv ← dimension_reshape pmd n (.scalar 0) (some ("pmd"))
  let baudL ← baud.toArr
  let gridL ← gridv.toArr
  let signalL ← signalv.toArr
  let rollL ← rollv.toArr
  let cdL ← cdv.toArr
  let pmdL ← pmdv.toArr
  mkSpectralInformation lin2db freqs baudL gridL signalL nliL aseL rollL cdL pmdL

/-- create_input_spectral_information (info.py:235-242): fixed-grid flat-power
comb with automatic_nch channels at f_min + spacing * i for i = 1..nb_channel.
automatic_nch is int((f_max - f_min)//spacing) (equipment.py:318; info.py
imports the function of the same name from gnpy.core.utils). -/
def create_input_spectral_information (lin2db : ℚ → ℚ)
    (f_min f_max roll_off baud_rate power spacing : ℚ) : Except PyErr SpectralInformation :=
  let nb_channel := automatic_nch f_min f_max spacing
  let frequency := (List.range nb_channel.toNat).map (fun i => f_min + spacing * ((i : ℚ) + 1))
  create_arbitrary_spectral_information lin2db (.arr frequency) (.scalar spacing)
    (.scalar power) (.scalar baud_rate) (.scalar roll_off) .pynone .pynone

/-- Projection used to state construction outcomes: the channel list of a
successful construction, none on failure. -/
def okChannels : Except PyErr SpectralInformation → Option (List SIChannel)
  | .ok si => some si.channels
  | .error _ => none

/-- C10 (code bug, info.py:220): create_arbitrary_spectral_information passes
the string literal for baud rate positionally as the DEFAULT argument of
dimension_reshape instead of as the name.  A missing baud rate therefore
falls back on the 9-character string: with 9 channels dimension_reshape
accepts it (length matches the dimension) and returns the string with no
InfoError, the eager grid default ceil(baud/BASE_GRID) then fails with a
numpy TypeError, and with any other channel count the InfoError raised is
the dimension-mismatch one naming the field None — the missing-mandatory-
field InfoError the claim describes is unreachable for the baud-rate field. -/
theorem C10_missing_baud_rate_not_info_error :
    dimension_reshape .pynone 9 (.str ("baud rate")) none = .ok (.str ("baud rate")) ∧
    create_arbitrary_spectral_information (fun _ => 0)
      (.arr [1, 2, 3, 4, 5, 6, 7, 8, 9]) .pynone .pynone .pynone .pynone .pynone .pynone
      = .error .typeError ∧
    (∀ msg, PyErr.typeError ≠ PyErr.infoError msg) ∧
    dimension_reshape .pynone 5 (.str ("baud rate")) none =
      .error (.infoError ("Dimension mismatch field: None.")) :=
  ⟨rfl, rfl, (fun _ h => nomatch h), rfl⟩

/-- C9 (code bug): with the reference C-band range 191.35-196.1 THz and a
requested spacing of 5 THz, zero channels fit (automatic_nch = 0) and the
initial spectral information built for the request carries an empty channel
list, the zero-channel propagation input of the claim.  The repository test
test_automaticmodefeature.py:154 pins that propagate_and_optimize_mode (not
under the sources at hand) then raises TypeError instead of recording the
NO_COMPUTED_SNR blocking reason that the specification and the test
docstring describe. -/
theorem C9_zero_channel_spacing_eval :
    automatic_nch 191.35e12 196.1e12 5e12 = 0 ∧
    ∀ lin2db : ℚ → ℚ,
      okChannels (create_input_spectral_information lin2db 191.35e12 196.1e12 0.15 32e9
        1e-3 5e12) = some [] := by
  have h : automatic_nch 191.35e12 196.1e12 5e12 = 0 := by norm_num [automatic_nch]
  refine ⟨h, fun L => ?_⟩
  simp only [create_input_spectral_information, h]
  rfl

/-- Fiber loss coefficient (elements.py:334-338): either a scalar value or a
frequency-sampled curve interpolated with numpy.interp against the reference
frequency grid f_loss_ref. -/
inductive LossCoef where
  | scalar (a : ℚ)
  | curve (f_loss_ref : List ℚ) (values : List ℚ)
  deriving DecidableEq, Repr

/-- The FiberParams fields read by Fiber.loss and Fiber.update_pref: span
length (m), input and output connector losses, input padding attenuation
att_in (dB) and the loss-coefficient description. -/
structure FiberParams where
  length : ℚ
  con_in : ℚ
  con_out : ℚ
  att_in : ℚ
  loss_coef : LossCoef
  deriving DecidableEq, Repr

/-- Fiber element state: static parameters, the conventional central C-band
reference frequency 193.5 THz fixed in __init__ (elements.py:332), and the
pch_out_db runtime field written by update_pref. -/
structure Fiber where
  params : FiberParams
  ref_frequency : ℚ
  pch_out_db : Option ℚ
  deriving DecidableEq, Repr

/-- The _loss_coef_fuction closure of Fiber.__init__ (elements.py:335-338):
interpolate the sampled curve at the requested frequency, or return the
scalar coefficient. -/
def Fiber.loss_coef_at (f : Fiber) (frequency : ℚ) : ℚ :=
  match f.params.loss_coef with
  | .scalar a => a
  | .curve xs ys => numpyInterp frequency xs ys

/-- Fiber.loss (elements.py:404-408): total loss including the padding
att_in — loss coefficient at the reference frequency times length plus
con_in, con_out and att_in. -/
def Fiber.loss (f : Fiber) : ℚ :=
  f.loss_coef_at f.ref_frequency * f.params.length
    + f.params.con_in + f.params.con_out + f.params.att_in

/-- Fiber.update_pref (elements.py:494-497): record pch_out_db and replace the
reference-power record with p_span0 unchanged and p_spani decreased by
Fiber.loss; neq_ch is untouched by the namedtuple replace. -/
def Fiber.update_pref (lin2db : ℚ → ℚ) (f : Fiber) (si : SpectralInformation) :
    Fiber × SpectralInformation :=
  let pch := pyRound2 (lin2db (listMean (si.channels.map SIChannel.signal) * 1000))
  let pref2 : Pref :=
    { p_span0 := si.pref.p_span0, p_spani := si.pref.p_spani - f.loss, neq_ch := si.pref.neq_ch }
  ({ f with pch_out_db := some pch }, { si with pref := pref2 })

/-- C5 (amended): after Fiber.update_pref the reference power p_spani has
decreased by exactly the total fiber loss — length times the loss
coefficient at the reference frequency plus the input and output connector
losses AND the input padding attenuation att_in — while p_span0 (and the
carriers themselves) are unchanged. -/
theorem C5_fiber_loss_update (lin2db : ℚ → ℚ) (f : Fiber) (si : SpectralInformation) :
    ((Fiber.update_pref lin2db f si).2.pref.p_spani =
      si.pref.p_spani - (f.loss_coef_at f.ref_frequency * f.params.length
        + f.params.con_in + f.params.con_out + f.params.att_in)) ∧
    (Fiber.update_pref lin2db f si).2.pref.p_span0 = si.pref.p_span0 ∧
    (Fiber.update_pref lin2db f si).2.channels = si.channels :=
  ⟨rfl, rfl, rfl⟩

/-- A concrete 80 km fiber with 0.2 dB/km loss coefficient, 0.5 dB connector
losses on each side and 1 dB input padding. -/
def fiberC5 : Fiber :=
  { params :=
      { length := 80000
        con_in := 1/2
        con_out := 1/2
        att_in := 1
        loss_coef := .scalar (1/5000) }
    ref_frequency := 193.5e12
    pch_out_db := none }

/-- C5 counterexample: on fiberC5 the reference power drops by 18 dB (16 dB
span loss + 1 dB connectors + 1 dB att_in padding), not by the 17 dB that
length times loss coefficient plus connector losses alone would give — the
claim omits the att_in padding term of Fiber.loss. -/
theorem C5_counterexample :
    (Fiber.update_pref (fun _ => 0) fiberC5 ⟨[], ⟨0, 0, 0⟩⟩).2.pref.p_spani = -18 ∧
    fiberC5.loss_coef_at fiberC5.ref_frequency * fiberC5.params.length
      + fiberC5.params.con_in + fiberC5.params.con_out = 17 ∧
    (-18 : ℚ) ≠ 0 - 17 := by
  refine ⟨?_, ?_, by norm_num⟩
  · simp only [Fiber.update_pref, Fiber.loss, Fiber.loss_coef_at, fiberC5]
    norm_num
  · simp only [Fiber.loss_coef_at, fiberC5]
    norm_num

/-- Transceiver runtime state relevant to SNR bookkeeping (elements.py:79-133):
the raw per-channel values cached by _calc_snr before any penalty, and the
current (possibly penalty-adjusted) output values. -/
structure Transceiver where
  baud_rate : List ℚ
  raw_osnr_ase : List ℚ
  raw_osnr_ase_01nm : List ℚ
  raw_osnr_nli : List ℚ
  raw_snr : List ℚ
  raw_snr_01nm : List ℚ
  osnr_ase : List ℚ
  osnr_ase_01nm : List ℚ
  osnr_nli : List ℚ
  snr : List ℚ
  snr_01nm : List ℚ
  deriving DecidableEq, Repr

/-- Transceiver.update_snr (elements.py:118-133): combine all penalty
arguments into one equivalent added-noise figure (sum of db2lin(-s) over the
args, converted back with -lin2db), then recompute the four output fields
from the cached raw values with snr_sum — the raw fields themselves are
never modified, so penalties cannot accumulate across calls.  snr_sum comes
from gnpy.core.utils (not under the sources at hand) and is passed in as a
function argument; the theorem below holds for every choice of it. -/
def Transceiver.update_snr (db2lin lin2db : ℚ → ℚ) (snr_sum : ℚ → ℚ → ℚ → ℚ)
    (args : List ℚ) (t : Transceiver) : Transceiver :=
  let snr_added := args.foldl (fun acc s => acc + db2lin (-s)) 0
  let snr_added := -(lin2db snr_added)
  { t with
    osnr_ase := List.zipWith (fun r b => snr_sum r b snr_added) t.raw_osnr_ase t.baud_rate
    snr := List.zipWith (fun r b => snr_sum r b snr_added) t.raw_snr t.baud_rate
    osnr_ase_01nm := t.raw_osnr_ase_01nm.map (fun r => snr_sum r 12.5e9 snr_added)
    snr_01nm := t.raw_snr_01nm.map (fun r => snr_sum r 12.5e9 snr_added) }

/-- Agreement of two Transceiver states on everything update_snr reads: the
cached raw (pre-penalty) values and the baud rates. -/
def Transceiver.RawAgree (t u : Transceiver) : Prop :=
  t.baud_rate = u.baud_rate ∧ t.raw_osnr_ase = u.raw_osnr_ase ∧
  t.raw_osnr_ase_01nm = u.raw_osnr_ase_01nm ∧ t.raw_snr = u.raw_snr ∧
  t.raw_snr_01nm = u.raw_snr_01nm

/-- Agreement of two Transceiver states on the four outputs update_snr
writes. -/
def Transceiver.OutAgree (t u : Transceiver) : Prop :=
  t.osnr_ase = u.osnr_ase ∧ t.snr = u.snr ∧
  t.osnr_ase_01nm = u.osnr_ase_01nm ∧ t.snr_01nm = u.snr_01nm

/-- C7: update_snr always recomputes from the cached raw values, for any
penalty arguments and any snr_sum implementation: applying it n + 1 times
with the same arguments equals applying it once (penalties never
accumulate), and two states agreeing on the raw values and baud rates
produce identical outputs (the result depends only on the raw values and the
arguments of the last call). -/
theorem C7_update_snr_recomputes_from_raw (db2lin lin2db : ℚ → ℚ)
    (snr_sum : ℚ → ℚ → ℚ → ℚ) (args : List ℚ) (t u : Transceiver) :
    (∀ n : ℕ, (Transceiver.update_snr db2lin lin2db snr_sum args)^[n + 1] t =
      Transceiver.update_snr db2lin lin2db snr_sum args t) ∧
    (Transceiver.RawAgree t u →
      Transceiver.OutAgree (Transceiver.update_snr db2lin lin2db snr_sum args t)
        (Transceiver.update_snr db2lin lin2db snr_sum args u)) := by
  have idem : ∀ s, Transceiver.update_snr db2lin lin2db snr_sum args
      (Transceiver.update_snr db2lin lin2db snr_sum args s) =
      Transceiver.update_snr db2lin lin2db snr_sum args s := fun _ => rfl
  constructor
  · intro n
    induction n generalizing t with
    | zero => rfl
    | succ m ih =>
      rw [Function.iterate_succ_apply, ih]
      exact idem t
  · rintro ⟨h1, h2, h3, h4, h5⟩
    refine ⟨?_, ?_, ?_, ?_⟩ <;> simp only [Transceiver.update_snr, h1, h2, h3, h4, h5]

/-- Amplifier noise-figure model variants (equipment.py:21-25, Amp.from_json):
variable-gain two-coil model, fixed-gain constant model, openroadm
polynomial model, advanced polynomial fit, or dual-stage composite. -/
inductive TypeDef where
  | variable_gain
  | fixed_gain
  | openroadm
  | advanced_model
  | dual_stage
  deriving DecidableEq, Repr

/-- The union of the per-variant noise-figure model coefficients (Model_vg,
Model_fg, Model_openroadm of equipment.py:21-23); each variant reads only its
own fields. -/
structure NFModel where
  nf0 : ℚ
  nf1 : ℚ
  nf2 : ℚ
  delta_p : ℚ
  nf_coef : List ℚ
  deriving DecidableEq, Repr

/-- The EdfaParams fields read by interpol_params, _nf and _calc_nf: the
noise model variant and coefficients, gain and power ratings, the reference
frequency range and the sampled calibration curves, plus the preamp and
booster sub-amplifier parameters attached by update_dual_stage
(equipment.py:347-369) for dual-stage types. -/
structure EdfaParams where
  type_def : TypeDef
  nf_model : NFModel
  nf_fit_coeff : List ℚ
  gain_min : ℚ
  gain_flatmax : ℚ
  p_max : ℚ
  f_min : ℚ
  f_max : ℚ
  dgt : List ℚ
  gain_ripple : List ℚ
  nf_ripple : List ℚ
  preamp_type_def : TypeDef
  preamp_nf_model : NFModel
  preamp_nf_fit_coeff : List ℚ
  preamp_gain_min : ℚ
  preamp_gain_flatmax : ℚ
  booster_type_def : TypeDef
  booster_nf_model : NFModel
  booster_nf_fit_coeff : List ℚ
  booster_gain_min : ℚ
  booster_gain_flatmax : ℚ
  deriving DecidableEq, Repr

/-- Edfa element state: static parameters, operational settings (delta_p,
tilt and output VOA), and the runtime fields written by interpol_params. -/
structure Edfa where
  params : EdfaParams
  delta_p : Option ℚ
  effective_gain : ℚ
  tilt_target : ℚ
  out_voa : ℚ
  channel_freq : List ℚ
  interpol_dgt : List ℚ
  interpol_gain_ripple : List ℚ
  interpol_nf_ripple : List ℚ
  nch : ℕ
  pin_db : ℚ
  target_pch_out_db : Option ℚ
  deriving DecidableEq, Repr

/-- Modelled from the spec: arrange_frequencies lives in gnpy.core.utils,
which is not under the sources at hand.  Per the spec (section 4.3) the
per-type calibration curves are defined on a reference frequency grid over
the amplifier frequency range, so the function returns the grid of the
requested number of points spanning f_min to f_max; its exact spacing is
irrelevant to every theorem below. -/
def arrange_frequencies (length : ℕ) (start stop : ℚ) : List ℚ :=
  if length ≤ 1 then [start]
  else (List.range length).map (fun i => start + (stop - start) * i / ((length : ℚ) - 1))

/-- Edfa.interpol_params (elements.py:639-685): resample the dgt, gain-ripple
and nf-ripple calibration curves onto the carrier frequencies, record the
channel count and total input power, then in constant-power-delta mode set
the target output power round(delta_p + p_span0, 2) and the effective gain
target - p_spani (elements.py:663-665).  The next statement
(elements.py:669) reads pref.p_span0_per_channel, a field the Pref
namedtuple does not define (Pref.lookup above), so the call raises
AttributeError there: the saturation clamp of elements.py:671-675 is never
reached and effective_gain is left unclamped. -/
def Edfa.interpol_params (lin2db : ℚ → ℚ) (e : Edfa) (si : SpectralInformation) :
    Edfa × Except PyErr Unit :=
  let freqs := si.channels.map SIChannel.frequency
  let dgtGrid := arrange_frequencies e.params.dgt.length e.params.f_min e.params.f_max
  let ripGrid := arrange_frequencies e.params.gain_ripple.length e.params.f_min e.params.f_max
  let nfGrid := arrange_frequencies e.params.nf_ripple.length e.params.f_min e.params.f_max
  let pin := si.channels.map (fun c => c.signal + c.ase + c.nli)
  let e1 := { e with
    channel_freq := freqs
    interpol_dgt := freqs.map (fun f => numpyInterp f dgtGrid e.params.dgt)
    interpol_gain_ripple := freqs.map (fun f => numpyInterp f ripGrid e.params.gain_ripple)
    interpol_nf_ripple := freqs.map (fun f => numpyInterp f nfGrid e.params.nf_ripple)
    nch := si.channels.length
    pin_db := lin2db ((pin.map (fun p => p * 1000)).sum) }
  let e2 :=
    match e1.delta_p with
    | some dp =>
      let target := pyRound2 (dp + si.pref.p_span0)
      { e1 with target_pch_out_db := some target, effective_gain := target - si.pref.p_spani }
    | none => e1
  (e2, .error .attributeError)

/-- Edfa._nf (elements.py:689-706): pad the gain target up to gain_min (the
pad is added to the returned noise figure), compute the distance dg below
flat-max gain, then dispatch on the model variant: two-coil formula for
variable gain, the constant nf0 for fixed gain, the per-channel-input-power
polynomial offset by 58 for openroadm, and the polynomial fit for the
advanced model.  The source has no dual_stage arm here (nf_avg would be
unbound — _calc_nf never calls _nf with dual_stage); this model returns 0 on
that unreachable arm. -/
def Edfa._nf (lin2db db2lin : ℚ → ℚ) (e : Edfa) (type_def : TypeDef) (nf_model : NFModel)
    (nf_fit_coeff : List ℚ) (gain_min gain_flatmax gain_target : ℚ) : ℚ × ℚ :=
  let pad := max (gain_min - gain_target) 0
  let gain_target := gain_target + pad
  let dg := max (gain_flatmax - gain_target) 0
  let nf_avg :=
    match type_def with
    | .variable_gain =>
      let g1a := gain_target - nf_model.delta_p - dg
      lin2db (db2lin nf_model.nf1 + db2lin nf_model.nf2 / db2lin g1a)
    | .fixed_gain => nf_model.nf0
    | .openroadm =>
      let pin_ch := e.pin_db - lin2db (e.nch : ℚ)
      pin_ch - polyval nf_model.nf_coef pin_ch + 58
    | .advanced_model => polyval nf_fit_coeff (-dg)
    | .dual_stage => 0
  (nf_avg + pad, pad)

/-- Edfa._calc_nf with avg = True (elements.py:708-744), returning the
average noise figure together with the pad recorded into att_in: a
dual-stage amplifier splits its gain at the preamp flat-max gain and
combines the two stages with the cascaded noise-figure formula (its pad is
reset to 0); every other variant delegates to _nf at the current effective
gain. -/
def Edfa._calc_nf_avg (lin2db db2lin : ℚ → ℚ) (e : Edfa) : ℚ × ℚ :=
  match e.params.type_def with
  | .dual_stage =>
    let g1 := e.params.preamp_gain_flatmax
    let g2 := e.effective_gain - g1
    let r1 := Edfa._nf lin2db db2lin e e.params.preamp_type_def e.params.preamp_nf_model
      e.params.preamp_nf_fit_coeff e.params.preamp_gain_min e.params.preamp_gain_flatmax g1
    let r2 := Edfa._nf lin2db db2lin e e.params.booster_type_def e.params.booster_nf_model
      e.params.booster_nf_fit_coeff e.params.booster_gain_min e.params.booster_gain_flatmax g2
    (lin2db (db2lin r1.1 + db2lin (r2.1 - g1)), 0)
  | _ =>
    Edfa._nf lin2db db2lin e e.params.type_def e.params.nf_model e.params.nf_fit_coeff
      e.params.gain_min e.params.gain_flatmax e.effective_gain

/-- Edfa._calc_nf with avg = False (elements.py:744): the per-channel noise
figure is the interpolated nf ripple plus the average noise figure. -/
def Edfa._calc_nf_ripple (lin2db db2lin : ℚ → ℚ) (e : Edfa) : List ℚ :=
  e.interpol_nf_ripple.map (fun x => x + (Edfa._calc_nf_avg lin2db db2lin e).1)

/-- C4 (amended): for a fixed-gain amplifier the average noise figure equals
the configured nf0 for every input power and every gain target at or above
the amplifier gain_min (no padding); the per-channel figure is nf0 plus the
nf ripple.  Below gain_min, _nf adds the pad gain_min - gain_target on top
of nf0 (see the counterexample). -/
theorem C4_fixed_gain_nf (lin2db db2lin : ℚ → ℚ) (e : Edfa)
    (htype : e.params.type_def = .fixed_gain)
    (hgain : e.params.gain_min ≤ e.effective_gain) :
    (Edfa._calc_nf_avg lin2db db2lin e).1 = e.params.nf_model.nf0 := by
  have hpad : max (e.params.gain_min - e.effective_gain) 0 = 0 :=
    max_eq_right (by linarith)
  simp only [Edfa._calc_nf_avg, htype, Edfa._nf, hpad, add_zero]

/-- A concrete fixed-gain amplifier parameter set: nf0 = 10 dB, gain range
15-26 dB, 21 dBm maximum output power, flat single-point calibration
curves over the C band. -/
def edfaFixedGainParams : EdfaParams :=
  { type_def := .fixed_gain
    nf_model := { nf0 := 10, nf1 := 0, nf2 := 0, delta_p := 0, nf_coef := [] }
    nf_fit_coeff := []
    gain_min := 15
    gain_flatmax := 26
    p_max := 21
    f_min := 191.35e12
    f_max := 196.1e12
    dgt := [0]
    gain_ripple := [0]
    nf_ripple := [0]
    preamp_type_def := .fixed_gain
    preamp_nf_model := { nf0 := 0, nf1 := 0, nf2 := 0, delta_p := 0, nf_coef := [] }
    preamp_nf_fit_coeff := []
    preamp_gain_min := 0
    preamp_gain_flatmax := 0
    booster_type_def := .fixed_gain
    booster_nf_model := { nf0 := 0, nf1 := 0, nf2 := 0, delta_p := 0, nf_coef := [] }
    booster_nf_fit_coeff := []
    booster_gain_min := 0
    booster_gain_flatmax := 0 }

/-- A fixed-gain Edfa operating at a 20 dB effective gain target, within its
rated gain range. -/
def edfaC4 : Edfa :=
  { params := edfaFixedGainParams
    delta_p := none
    effective_gain := 20
    tilt_target := 0
    out_voa := 0
    channel_freq := []
    interpol_dgt := []
    interpol_gain_ripple := []
    interpol_nf_ripple := []
    nch := 0
    pin_db := 0
    target_pch_out_db := none }

/-- The same fixed-gain amplifier with gain_min = 20 dB driven at a 15 dB
gain target, i.e. below its minimum gain. -/
def edfaC4low : Edfa :=
  { edfaC4 with
    effective_gain := 15
    params := { edfaFixedGainParams with gain_min := 20 } }

/-- Witness for C4 at the concrete fixed-gain amplifier edfaC4: at gain
target 20 dB (above gain_min = 15) the average noise figure is exactly the
configured nf0. -/
theorem C4_fixed_gain_nf_witness :
    (Edfa._calc_nf_avg (fun x => x) (fun x => x) edfaC4).1 = edfaC4.params.nf_model.nf0 :=
  C4_fixed_gain_nf (fun x => x) (fun x => x) edfaC4 rfl
    (by norm_num [edfaC4, edfaFixedGainParams])

/-- C4 counterexample: the claim states the fixed-gain noise figure equals
nf0 for EVERY gain target, but for a gain target of 15 dB below gain_min =
20 dB the pad gain_min - gain_target = 5 dB is added (elements.py:692,706):
the computed average noise figure is 15, not the configured nf0 = 10. -/
theorem C4_fixed_gain_nf_counterexample :
    (Edfa._calc_nf_avg (fun x => x) (fun x => x) edfaC4low).1 = 15 ∧
    edfaC4low.params.nf_model.nf0 = 10 ∧ (15 : ℚ) ≠ 10 := by
  refine ⟨?_, rfl, by norm_num⟩
  simp only [Edfa._calc_nf_avg, Edfa._nf, edfaC4low, edfaC4, edfaFixedGainParams]
  rw [max_eq_left (by norm_num)]
  norm_num

/-- A single reference channel at 193.1 THz: 50 GHz grid, 32 GBaud, 1 mW
signal, no accumulated noise. -/
def siOneChannel : SpectralInformation :=
  { channels := [⟨193.1e12, 50e9, 32e9, 1e-3, 0, 0, 0, 0, 0⟩]
    pref := { p_span0 := 0, p_spani := 0, neq_ch := 0 } }

/-- The fixed-gain amplifier in constant-power-delta mode with an absurdly
large delta_p = 100 dB against its 21 dBm maximum output power. -/
def edfaC3 : Edfa := { edfaC4 with delta_p := some 100 }

/-- C3 (code bug): interpol_params on a power-mode EDFA derives the
effective gain delta_p + p_span0 - p_spani (here 100 dB) and then raises
AttributeError at the pref.p_span0_per_channel read (elements.py:669) BEFORE
the saturation clamp of elements.py:671-675 can run: the state after the
failed call carries an effective gain of 100 dB, far above the p_max = 21
dBm rating, so the claimed postcondition effective_gain <= p_max -
total_input_power cannot hold. -/
theorem C3_saturation_clamp_never_runs :
    (Edfa.interpol_params (fun _ => 0) edfaC3 siOneChannel).2 = .error .attributeError ∧
    (Edfa.interpol_params (fun _ => 0) edfaC3 siOneChannel).1.effective_gain = 100 ∧
    edfaC3.params.p_max = 21 ∧
    edfaC3.params.p_max < (Edfa.interpol_params (fun _ => 0) edfaC3 siOneChannel).1.effective_gain := by
  have hgain : (Edfa.interpol_params (fun _ => 0) edfaC3 siOneChannel).1.effective_gain = 100 := by
    simp only [Edfa.interpol_params, edfaC3, edfaC4, siOneChannel, pyRound2, pyRoundInt]
    norm_num
  refine ⟨rfl, hgain, rfl, ?_⟩
  rw [hgain]
  norm_num [edfaC3, edfaC4, edfaFixedGainParams]

/-- Python truthiness of an optional power value: None and 0.0 are falsy
(the `if self.ref_pch_out_dbm:` test of elements.py:240 treats an absent
target and a 0 dBm target alike). -/
def pyTruthy : Option ℚ → Bool
  | none => false
  | some v => v ≠ 0

/-- Roadm element state: the two equalization configurations (absolute power
or power spectral density), their per-degree overrides, and the runtime
fields rewritten on every propagate call (elements.py:182-198). -/
structure Roadm where
  ref_pch_out_dbm : Option ℚ
  per_degree_pch_out_db : List (String × ℚ)
  target_psd_out_mWperGHz : Option ℚ
  per_degree_pch_psd : List (String × ℚ)
  effective_loss : Option ℚ
  pmd : ℚ
  deriving DecidableEq, Repr

/-- Roadm.propagate (elements.py:229-263).  Target selection
(elements.py:240-245): in power mode the per-degree override if present else
the global target; in PSD mode with a per-degree override the code calls
psd2powerdbm(.., baudrate_baud, roll_off) where neither name is bound in
this scope — a NameError; in PSD mode without an override the global PSD
value; with neither equalization truthy, per_degree_pch was never assigned —
a NameError at elements.py:247.  Then the achieved reference output power is
clamped to min(p_spani, target) and recorded with the effective loss
(elements.py:247-250), the per-channel input powers and their minimum are
computed (elements.py:251-253; Python min of an empty sequence raises
ValueError), and elements.py:257 reads pref.p_span0_per_channel — a field
Pref does not define (Pref.lookup above) — so an AttributeError is raised
before any attenuation is applied to the carriers. -/
def Roadm.propagate (lin2db : ℚ → ℚ) (r : Roadm) (si : SpectralInformation) (degree : String) :
    Roadm × Except PyErr SpectralInformation :=
  let pchOrErr : Except PyErr ℚ :=
    if pyTruthy r.ref_pch_out_dbm then
      match r.per_degree_pch_out_db.lookup degree with
      | some v => .ok v
      | none => .ok (r.ref_pch_out_dbm.getD 0)
    else if pyTruthy r.target_psd_out_mWperGHz then
      match r.per_degree_pch_psd.lookup degree with
      | some _ => .error .nameError
      | none => .ok (r.target_psd_out_mWperGHz.getD 0)
    else
      .error .nameError
  match pchOrErr with
  | .error e => (r, .error e)
  | .ok per_degree_pch =>
    let ref_pch_out := min si.pref.p_spani per_degree_pch
    let r1 := { r with
      ref_pch_out_dbm := some ref_pch_out
      effective_loss := some (si.pref.p_spani - ref_pch_out) }
    let input_power := si.channels.map (fun c => c.signal + c.nli + c.ase)
    match (input_power.map (fun p => lin2db (p * 1000))).min? with
    | none => (r1, .error .valueError)
    | some min_power =>
      let _pch_capped := if per_degree_pch < min_power then per_degree_pch else min_power
      (r1, .error .attributeError)

/-- C6 (amended): the Pref record produced by the SpectralInformation
constructor has no p_span0_per_channel field, and both transforms read it.
Edfa.interpol_params raises AttributeError on every call; Roadm.propagate
raises AttributeError on every call on a non-empty spectrum whenever power
equalization is configured (ref_pch_out_dbm truthy) — before completing and
before touching the carriers.  (In PSD mode with a per-degree override a
NameError on the undefined baudrate_baud preempts it, see the
counterexample; with neither equalization truthy a NameError on the unbound
per_degree_pch is raised; on an empty spectrum Python min([]) raises
ValueError first.  The error branch is reachable on every call, not only on
malformed inputs.) -/
theorem C6_p_span0_per_channel_missing (lin2db : ℚ → ℚ) (e : Edfa)
    (si : SpectralInformation) (r : Roadm) (degree : String)
    (hch : si.channels ≠ []) (hpower : pyTruthy r.ref_pch_out_dbm = true) :
    (∀ p : Pref, p.lookup ("p_span0_per_channel") = none) ∧
    (Edfa.interpol_params lin2db e si).2 = .error .attributeError ∧
    (Roadm.propagate lin2db r si degree).2 = .error .attributeError := by
  refine ⟨fun p => rfl, rfl, ?_⟩
  obtain ⟨chs, pref⟩ := si
  cases chs with
  | nil => exact absurd rfl hch
  | cons c rest =>
    rcases hl : r.per_degree_pch_out_db.lookup degree with _ | v <;>
      simp [Roadm.propagate, hpower, hl, List.min?]

/-- A power-equalized ROADM with a -20 dBm global target and no per-degree
override. -/
def roadmC6 : Roadm :=
  { ref_pch_out_dbm := some (-20)
    per_degree_pch_out_db := []
    target_psd_out_mWperGHz := none
    per_degree_pch_psd := []
    effective_loss := none
    pmd := 0 }

/-- Witness for C6: the amended statement at the concrete power-mode ROADM
roadmC6, the fixed-gain amplifier edfaC4 and the one-channel spectrum. -/
theorem C6_p_span0_per_channel_missing_witness :
    (∀ p : Pref, p.lookup ("p_span0_per_channel") = none) ∧
    (Edfa.interpol_params (fun _ => 0) edfaC4 siOneChannel).2 = .error .attributeError ∧
    (Roadm.propagate (fun _ => 0) roadmC6 siOneChannel ("toB")).2 = .error .attributeError :=
  C6_p_span0_per_channel_missing (fun _ => 0) edfaC4 siOneChannel roadmC6 ("toB")
    (by simp [siOneChannel]) (by norm_num [roadmC6, pyTruthy])

/-- A PSD-equalized ROADM with a per-degree PSD override for degree toB. -/
def roadmPsd : Roadm :=
  { ref_pch_out_dbm := none
    per_degree_pch_out_db := []
    target_psd_out_mWperGHz := some (1/10)
    per_degree_pch_psd := [(("toB"), 1/10)]
    effective_loss := none
    pmd := 0 }

/-- C6 counterexample: the claim as stated says every Roadm.propagate call
raises an AttributeError, but in PSD-equalization mode with a per-degree
override the call elements.py:244 psd2powerdbm(..., baudrate_baud, roll_off)
references two names that are unbound in propagate, so Python raises
NameError there, before the p_span0_per_channel read. -/
theorem C6_psd_override_name_error :
    (Roadm.propagate (fun _ => 0) roadmPsd siOneChannel ("toB")).2 = .error .nameError ∧
    PyErr.nameError ≠ PyErr.attributeError := by
  refine ⟨?_, (fun h => nomatch h)⟩
  norm_num [Roadm.propagate, roadmPsd, pyTruthy]

/-- A power-equalized ROADM with a -20 dBm global target and a -15 dBm
override on degree toB. -/
def roadmC2 : Roadm :=
  { ref_pch_out_dbm := some (-20)
    per_degree_pch_out_db := [(("toB"), -15)]
    target_psd_out_mWperGHz := none
    per_degree_pch_psd := []
    effective_loss := none
    pmd := 0 }

/-- C2 (code bug): the target selection and clamping prefix of
Roadm.propagate does run — on degree toB the per-degree override -15 dBm is
selected and the recorded reference output power is min(p_spani, target) =
-15 dBm, on any other degree the global -20 dBm target is used — but the
call then raises AttributeError at the pref.p_span0_per_channel read
(elements.py:257) before any attenuation is applied to the carriers, so no
invocation ever produces the equalized output power the claim describes. -/
theorem C2_roadm_clamps_then_crashes :
    (Roadm.propagate (fun _ => 0) roadmC2 siOneChannel ("toB")).1.ref_pch_out_dbm =
      some (-15) ∧
    (Roadm.propagate (fun _ => 0) roadmC2 siOneChannel ("toB")).1.effective_loss = some 15 ∧
    (Roadm.propagate (fun _ => 0) roadmC2 siOneChannel ("other")).1.ref_pch_out_dbm =
      some (-20) ∧
    (Roadm.propagate (fun _ => 0) roadmC2 siOneChannel ("toB")).2 = .error .attributeError := by
  have hl : List.lookup ("other") ([(("toB"), (-15 : ℚ))]) = none := rfl
  refine ⟨?_, ?_, ?_, ?_⟩ <;>
    norm_num [Roadm.propagate, roadmC2, siOneChannel, pyTruthy, List.min?, min_def, hl]

/-- Path request fields used by the forced-mode branch of
compute_path_with_disjunction: the resolved baud rate (None when the mode is
left to the optimizer), the forced mode required OSNR threshold, and the
blocking_reason tag recorded on infeasibility. -/
structure PathRequest where
  baud_rate : Option ℚ
  OSNR : ℚ
  blocking_reason : Option String
  deriving DecidableEq, Repr

/-- The per-request body of compute_path_with_disjunction
(path_requests_run.py:178-227) restricted to what the forced-mode claim
exercises.  An empty path only logs and returns; a request with a user-forced
mode (baud_rate not None) is propagated — propagate (gnpy.core.request, not
under the sources at hand) threads the spectrum through the path, and its
terminal per-channel SNR values are passed in here as path_snr — then
temp_snr01nm = round(mean(snr + lin2db(baud_rate/12.5e9)), 2) is compared
against the required OSNR: when strictly below, blocking reason
MODE_NOT_FEASIBLE is recorded on the request (path_requests_run.py:189), no
exception is raised, and the propagated path is appended to the results in
every case (path_requests_run.py:227).  The auto-mode arm delegates to
propagate_and_optimize_mode (also not under the sources at hand) and is not
modelled. -/
def compute_path_forced_mode (lin2db : ℚ → ℚ) {α : Type} (req : PathRequest)
    (total_path : List α) (path_snr : List ℚ) : PathRequest × List α :=
  if total_path.isEmpty then (req, total_path)
  else
    match req.baud_rate with
    | some b =>
      let temp_snr01nm := pyRound2 (listMean (path_snr.map (fun s => s + lin2db (b / 12.5e9))))
      if temp_snr01nm < req.OSNR then
        ({ req with blocking_reason := some ("MODE_NOT_FEASIBLE") }, total_path)
      else
        (req, total_path)
    | none => (req, total_path)

/-- C8 (amended): for a forced mode on a non-empty path, when the mean SNR in
the 0.1 nm reference bandwidth ROUNDED TO TWO DECIMALS is strictly below the
required OSNR the driver records blocking reason MODE_NOT_FEASIBLE,
otherwise it leaves the blocking reason unchanged; in both cases no
exception is raised and the propagated path is still returned. -/
theorem C8_forced_mode_blocking (lin2db : ℚ → ℚ) {α : Type} (req : PathRequest) (b : ℚ)
    (total_path : List α) (path_snr : List ℚ)
    (hne : total_path ≠ []) (hb : req.baud_rate = some b) :
    ((pyRound2 (listMean (path_snr.map (fun s => s + lin2db (b / 12.5e9)))) < req.OSNR →
      (compute_path_forced_mode lin2db req total_path path_snr).1.blocking_reason =
        some ("MODE_NOT_FEASIBLE")) ∧
     (¬ pyRound2 (listMean (path_snr.map (fun s => s + lin2db (b / 12.5e9)))) < req.OSNR →
      (compute_path_forced_mode lin2db req total_path path_snr).1.blocking_reason =
        req.blocking_reason)) ∧
    (compute_path_forced_mode lin2db req total_path path_snr).2 = total_path := by
  have hE : total_path.isEmpty = false := by
    cases total_path with
    | nil => exact absurd rfl hne
    | cons x t => rfl
  constructor
  · constructor <;> intro hcmp <;>
      simp [compute_path_forced_mode, hE, hb, hcmp]
  · by_cases hcmp : pyRound2 (listMean (path_snr.map (fun s => s + lin2db (b / 12.5e9)))) <
        req.OSNR <;> simp [compute_path_forced_mode, hE, hb, hcmp]

/-- A request forcing a 12.5 GBaud mode requiring 15 dB OSNR, not yet
blocked. -/
def reqC8 : PathRequest := { baud_rate := some 12.5e9, OSNR := 15, blocking_reason := none }

/-- Witness for C8 at a concrete one-element path with terminal SNR 10 dB
against a 15 dB requirement: MODE_NOT_FEASIBLE is recorded and the path is
returned. -/
theorem C8_forced_mode_blocking_witness :
    (compute_path_forced_mode (fun _ => 0) reqC8 [()] [10]).1.blocking_reason =
      some ("MODE_NOT_FEASIBLE") ∧
    (compute_path_forced_mode (fun _ => 0) reqC8 [()] [10]).2 = [()] :=
  ⟨(C8_forced_mode_blocking (fun _ => 0) reqC8 12.5e9 [()] [10] (by simp) rfl).1.1
      (by norm_num [pyRound2, pyRoundInt, listMean, reqC8]),
   (C8_forced_mode_blocking (fun _ => 0) reqC8 12.5e9 [()] [10] (by simp) rfl).2⟩

/-- The lin2db stand-in used by the C8 counterexample: the driver evaluates
lin2db only at baud_rate/12.5e9 = 1, where the true value 10*log10(1) is 0,
and this function also returns 0 at 1. -/
def lin2dbAtOne : ℚ → ℚ := fun x => x - 1

/-- C8 counterexample: with a terminal mean 0.1 nm SNR of 14.999 dB, strictly
below the required OSNR of 15 dB, the driver does NOT record
MODE_NOT_FEASIBLE, because it compares round(14.999, 2) = 15.0 — the claim
as stated (comparison of the unrounded mean) is false on the code, which
rounds to two decimals first (path_requests_run.py:182). -/
theorem C8_rounding_escapes_blocking :
    listMean (([(14999/1000 : ℚ)]).map (fun s => s + lin2dbAtOne (12.5e9 / 12.5e9))) <
      reqC8.OSNR ∧
    pyRound2 (listMean (([(14999/1000 : ℚ)]).map
      (fun s => s + lin2dbAtOne (12.5e9 / 12.5e9)))) = 15 ∧
    (compute_path_forced_mode lin2dbAtOne reqC8 [()] [14999/1000]).1.blocking_reason =
      none := by
  have hmean : listMean (([(14999/1000 : ℚ)]).map
      (fun s => s + lin2dbAtOne (12.5e9 / 12.5e9))) = 14999/1000 := by
    norm_num [listMean, lin2dbAtOne]
  have hround : pyRound2 (14999/1000 : ℚ) = 15 := by
    norm_num [pyRound2, pyRoundInt]
  refine ⟨by rw [hmean]; norm_num [reqC8], by rw [hmean, hround], ?_⟩
  simp only [compute_path_forced_mode, reqC8]
  norm_num [hmean, hround, listMean, lin2dbAtOne, pyRound2, pyRoundInt]

/-- A terminal transceiver holding raw SNR values with outputs equal to the
raw values, as _calc_snr leaves them. -/
def trxRaw : Transceiver :=
  { baud_rate := [32e9]
    raw_osnr_ase := [20]
    raw_osnr_ase_01nm := [16]
    raw_osnr_nli := [25]
    raw_snr := [18]
    raw_snr_01nm := [14]
    osnr_ase := [20]
    osnr_ase_01nm := [16]
    osnr_nli := [25]
    snr := [18]
    snr_01nm := [14] }

/-- The same transceiver after some earlier penalty application mangled its
output fields; the cached raw values are identical. -/
def trxPenalized : Transceiver :=
  { trxRaw with osnr_ase := [3], osnr_ase_01nm := [4], snr := [5], snr_01nm := [6] }

/-- Witness for C7: applying update_snr three times to trxRaw equals applying
it once, and trxRaw and trxPenalized — identical raw values, different
current outputs — produce the same outputs. -/
theorem C7_update_snr_recomputes_from_raw_witness :
    ((Transceiver.update_snr (fun x => x) (fun x => x) (fun a b c => a + b + c) [1])^[3]
        trxRaw =
      Transceiver.update_snr (fun x => x) (fun x => x) (fun a b c => a + b + c) [1] trxRaw) ∧
    Transceiver.OutAgree
      (Transceiver.update_snr (fun x => x) (fun x => x) (fun a b c => a + b + c) [1] trxRaw)
      (Transceiver.update_snr (fun x => x) (fun x => x) (fun a b c => a + b + c) [1]
        trxPenalized) :=
  ⟨(C7_update_snr_recomputes_from_raw (fun x => x) (fun x => x) (fun a b c => a + b + c) [1]
      trxRaw trxPenalized).1 2,
   (C7_update_snr_recomputes_from_raw (fun x => x) (fun x => x) (fun a b c => a + b + c) [1]
      trxRaw trxPenalized).2 ⟨rfl, rfl, rfl, rfl, rfl⟩⟩
